import Mathlib

/-!
Verification development for the pysteps-tutorials CI bootstrapper
(`ci/fetch_pysteps_data.py`).

The script parses exactly one positional command-line argument `dest_dir`
with `argparse`, then runs `download_pysteps_data(dest_dir, force=True)`
followed by `create_default_pystepsrc(dest_dir)`.  We embed:

* the behaviour of the script's `argparse.ArgumentParser` (one required
  positional of type `str`, plus the automatic `-h` and `--help` option) on
  an argument vector, as `parseArgs`;
* the script's main body as a function producing the sequence of external
  calls it performs together with the process exit code, `runScriptMain`
  (exit 2 on an argparse usage error, exit 0 after `--help`, exit 1 when an
  external call raises, exit 0 on full success);
* the effect of the two external calls on a filesystem abstraction,
  modelled from the spec since `pysteps.datasets` is an external library.
-/

namespace FetchPystepsData

/-- How the script's argparse parser classifies one command-line token:
a value for the positional `dest_dir`, the automatic help option
(`-h` or `--help`, including unambiguous abbreviations of the latter), or
an option-looking token that matches no declared option. -/
inductive ArgKind
  | positional
  | helpOpt
  | unknownOpt
deriving DecidableEq

/-- Argparse's negative-number test for a token starting with `-`: the tail
after the dash is all digits, or digits then `.` then at least one digit.
Since this parser declares no negative-number-looking options, such tokens
are treated as positional values. -/
def looksLikeNegTail (rest : List Char) : Bool :=
  (!rest.isEmpty && rest.all Char.isDigit)
  || (match rest.dropWhile Char.isDigit with
      | '.' :: fs => !fs.isEmpty && fs.all Char.isDigit
      | _ => false)

/-- Classify one token the way the script's parser does: `-h`, `--help` and
unambiguous abbreviations of `--help` invoke help; any other token starting
with `-` is option-like (hence unknown to this parser) unless it is the
bare `-`, looks like a negative number, or contains a space, in which case
argparse treats it as a positional value. -/
def classifyArg (s : String) : ArgKind :=
  if s ∈ ["-h", "--help", "--h", "--he", "--hel"] then .helpOpt
  else
    match s.data with
    | '-' :: rest =>
      if rest.isEmpty then .positional
      else if looksLikeNegTail rest then .positional
      else if rest.contains ' ' then .positional
      else .unknownOpt
    | _ => .positional

/-- Result of scanning an argument vector: values collected for the
positional `dest_dir`, whether help was requested, and whether any token
matched no declared option. -/
structure ScanResult where
  positionals : List String
  helpSeen : Bool
  unknownSeen : Bool
deriving DecidableEq

/-- Scan the argument vector left to right.  The first `--` token ends
option processing: every later token is a positional value. -/
def scanArgsAux : List String → ScanResult → ScanResult
  | [], acc => acc
  | a :: rest, acc =>
    if a = "--" then { acc with positionals := acc.positionals ++ rest }
    else
      match classifyArg a with
      | .positional => scanArgsAux rest { acc with positionals := acc.positionals ++ [a] }
      | .helpOpt => scanArgsAux rest { acc with helpSeen := true }
      | .unknownOpt => scanArgsAux rest { acc with unknownSeen := true }

/-- Scan an argument vector starting from the empty result. -/
def scanArgs (argv : List String) : ScanResult :=
  scanArgsAux argv ⟨[], false, false⟩

/-- Outcome of `parser.parse_args()` for this script: the parsed
`dest_dir` string, an immediate help exit (status 0), or a usage error
(argparse calls `parser.error`, which exits with status 2).  The help
action fires during parsing, so it wins over the end-of-parse checks for
unrecognized arguments and the missing required positional. -/
inductive ParseOutcome
  | ok (dest_dir : String)
  | helpExit
  | usageError
deriving DecidableEq

/-- The behaviour of `parser.parse_args(argv)` for this script's parser. -/
def parseArgs (argv : List String) : ParseOutcome :=
  let r := scanArgs argv
  if r.helpSeen then .helpExit
  else if r.unknownSeen then .usageError
  else
    match r.positionals with
    | [p] => .ok p
    | _ => .usageError

/-- One external call performed by the script, recording the exact argument
strings passed and whether the call succeeded (`ok = false` models the call
raising an exception). -/
inductive Event
  | download_pysteps_data (dest_dir : String) (force : Bool) (ok : Bool)
  | create_default_pystepsrc (dest_dir : String) (ok : Bool)
deriving DecidableEq

/-- The script's main body: parse the arguments, then call
`download_pysteps_data(args.dest_dir, force=True)` and, if that returns,
`create_default_pystepsrc(args.dest_dir)`.  The oracles `dOk`/`cOk` say
whether each external call succeeds on a given destination string.  Returns
the sequence of external calls performed and the process exit code: 2 for a
usage error, 0 after help, 1 for an uncaught exception, 0 on success. -/
def runScriptMain (argv : List String) (dOk cOk : String → Bool) :
    List Event × Nat :=
  match parseArgs argv with
  | .usageError => ([], 2)
  | .helpExit => ([], 0)
  | .ok dest =>
    if dOk dest then
      if cOk dest then
        ([.download_pysteps_data dest true true, .create_default_pystepsrc dest true], 0)
      else
        ([.download_pysteps_data dest true true, .create_default_pystepsrc dest false], 1)
    else
      ([.download_pysteps_data dest true false], 1)

/-- Filesystem abstraction: for each destination string, the list of
dataset files present in the dataset tree under it, and the dataset-path
field of the configuration record at its conventional location (`none`
when no configuration record exists). -/
structure FS where
  tree : String → List String
  config : Option String

/-- Modelled from the spec: the effect of each external call, which is
library code not present in this repository.  A successful
`download_pysteps_data` with force semantics unconditionally replaces the
dataset tree at the destination with the fixed reference dataset `ds`;
without force it would skip when data is already present.  A successful
`create_default_pystepsrc` writes the configuration record with its
dataset-path field set to the destination.  A failed call is not credited
with any completed effect. -/
def applyEvent (ds : List String) (fs : FS) : Event → FS
  | .download_pysteps_data dest force ok =>
      if ok then
        if force then
          { fs with tree := fun p => if p = dest then ds else fs.tree p }
        else if (fs.tree dest).isEmpty then
          { fs with tree := fun p => if p = dest then ds else fs.tree p }
        else fs
      else fs
  | .create_default_pystepsrc dest ok =>
      if ok then { fs with config := some dest } else fs

/-- Apply a sequence of external-call events to the filesystem in order. -/
def applyEvents (ds : List String) (fs : FS) (es : List Event) : FS :=
  es.foldl (applyEvent ds) fs

/-- Run the bootstrapper on an argument vector from an initial filesystem:
final filesystem state and process exit code. -/
def runBootstrap (ds : List String) (argv : List String)
    (dOk cOk : String → Bool) (fs : FS) : FS × Nat :=
  let r := runScriptMain argv dOk cOk
  (applyEvents ds fs r.1, r.2)

/-- Place an unrelated marker file inside the dataset tree under `dest`. -/
def addMarker (dest marker : String) (fs : FS) : FS :=
  { fs with tree := fun p => if p = dest then marker :: fs.tree p else fs.tree p }

/-- Number of dataset-download calls in a call trace. -/
def countDownloads : List Event → Nat
  | [] => 0
  | Event.download_pysteps_data _ _ _ :: es => countDownloads es + 1
  | Event.create_default_pystepsrc _ _ :: es => countDownloads es

/-- Number of configuration-write calls in a call trace. -/
def countConfigWrites : List Event → Nat
  | [] => 0
  | Event.create_default_pystepsrc _ _ :: es => countConfigWrites es + 1
  | Event.download_pysteps_data _ _ _ :: es => countConfigWrites es

lemma classifyArg_ne_doubleDash {P : String} (hP : classifyArg P = ArgKind.positional) :
    P ≠ "--" := by
  intro h
  rw [h] at hP
  exact absurd hP (by decide)

lemma parseArgs_single {P : String} (hP : classifyArg P = ArgKind.positional) :
    parseArgs [P] = ParseOutcome.ok P := by
  have hne := classifyArg_ne_doubleDash hP
  simp [parseArgs, scanArgs, scanArgsAux, hne, hP]

lemma parseArgs_eq (argv : List String) :
    parseArgs argv =
      if (scanArgs argv).helpSeen then ParseOutcome.helpExit
      else if (scanArgs argv).unknownSeen then ParseOutcome.usageError
      else
        match (scanArgs argv).positionals with
        | [p] => ParseOutcome.ok p
        | _ => ParseOutcome.usageError := rfl

lemma runScriptMain_usageError {argv : List String} (dOk cOk : String → Bool)
    (hp : parseArgs argv = ParseOutcome.usageError) :
    runScriptMain argv dOk cOk = ([], 2) := by
  simp [runScriptMain, hp]

/-- C1: for every destination path P accepted by the parser as a positional
value, invoking the bootstrapper with the single argument P when both the
download and the configuration write succeed installs the dataset under P,
writes the configuration record with dataset path P, and exits with 0. -/
theorem C1_happy_path (ds : List String) (P : String) (dOk cOk : String → Bool)
    (fs : FS) (hP : classifyArg P = ArgKind.positional)
    (hd : dOk P = true) (hc : cOk P = true) :
    (runBootstrap ds [P] dOk cOk fs).1.tree P = ds ∧
    (runBootstrap ds [P] dOk cOk fs).1.config = some P ∧
    (runBootstrap ds [P] dOk cOk fs).2 = 0 := by
  have hp := parseArgs_single hP
  simp [runBootstrap, runScriptMain, hp, hd, hc, applyEvents, applyEvent]

theorem C1_happy_path_witness :
    (runBootstrap ["radar.nc"] ["/tmp/test_env"] (fun _ => true) (fun _ => true)
        ⟨fun _ => [], none⟩).1.tree "/tmp/test_env" = ["radar.nc"] ∧
    (runBootstrap ["radar.nc"] ["/tmp/test_env"] (fun _ => true) (fun _ => true)
        ⟨fun _ => [], none⟩).1.config = some "/tmp/test_env" ∧
    (runBootstrap ["radar.nc"] ["/tmp/test_env"] (fun _ => true) (fun _ => true)
        ⟨fun _ => [], none⟩).2 = 0 :=
  C1_happy_path ["radar.nc"] "/tmp/test_env" (fun _ => true) (fun _ => true)
    ⟨fun _ => [], none⟩ (by decide) rfl rfl

/-- C2: if the download fails, the configuration record is neither created
nor updated in that run, and in every run a configuration-write call occurs
only when the download call for the same destination has succeeded. -/
theorem C2_download_failure_no_config (ds : List String) (argv : List String)
    (dOk cOk : String → Bool) (fs : FS) (dest : String)
    (hp : parseArgs argv = ParseOutcome.ok dest) (hd : dOk dest = false) :
    (runBootstrap ds argv dOk cOk fs).1.config = fs.config ∧
    (∀ d o, Event.create_default_pystepsrc d o ∉ (runScriptMain argv dOk cOk).1) ∧
    (∀ argv2 d2 c2 d o,
      Event.create_default_pystepsrc d o ∈ (runScriptMain argv2 d2 c2).1 →
      Event.download_pysteps_data d true true ∈ (runScriptMain argv2 d2 c2).1) := by
  refine ⟨?_, ?_, ?_⟩
  · simp [runBootstrap, runScriptMain, hp, hd, applyEvents, applyEvent]
  · intro d o
    simp [runScriptMain, hp, hd]
  · intro argv2 d2 c2 d o hmem
    cases h2 : parseArgs argv2 with
    | usageError => simp [runScriptMain, h2] at hmem
    | helpExit => simp [runScriptMain, h2] at hmem
    | ok dd =>
      by_cases hdd : d2 dd = true
      · by_cases hcc : c2 dd = true
        · simp [runScriptMain, h2, hdd, hcc] at hmem ⊢
          exact hmem.1
        · simp [runScriptMain, h2, hdd, hcc] at hmem ⊢
          exact hmem.1
      · simp [runScriptMain, h2, hdd] at hmem

theorem C2_download_failure_no_config_witness :
    (runBootstrap ["radar.nc"] ["/tmp/x"] (fun _ => false) (fun _ => true)
        ⟨fun _ => [], some "/old"⟩).1.config = (⟨fun _ => [], some "/old"⟩ : FS).config ∧
    (∀ d o, Event.create_default_pystepsrc d o ∉
        (runScriptMain ["/tmp/x"] (fun _ => false) (fun _ => true)).1) ∧
    (∀ argv2 d2 c2 d o,
      Event.create_default_pystepsrc d o ∈ (runScriptMain argv2 d2 c2).1 →
      Event.download_pysteps_data d true true ∈ (runScriptMain argv2 d2 c2).1) :=
  C2_download_failure_no_config ["radar.nc"] ["/tmp/x"] (fun _ => false) (fun _ => true)
    ⟨fun _ => [], some "/old"⟩ "/tmp/x" (by decide) rfl

/-- C3: every download call the script ever issues carries `force = true`,
and running the bootstrapper twice against the same accepted path P, with
an unrelated marker file placed inside P's dataset tree between the runs,
leaves the marker absent after the second run. -/
theorem C3_force_semantics (ds : List String) (P marker : String)
    (dOk cOk : String → Bool) (fs : FS)
    (hP : classifyArg P = ArgKind.positional) (hm : marker ∉ ds)
    (hd : dOk P = true) :
    (∀ argv d c dest f o,
        Event.download_pysteps_data dest f o ∈ (runScriptMain argv d c).1 → f = true) ∧
    marker ∉ (runBootstrap ds [P] dOk cOk
        (addMarker P marker (runBootstrap ds [P] dOk cOk fs).1)).1.tree P := by
  constructor
  · intro argv d c dest f o hmem
    cases h2 : parseArgs argv with
    | usageError => simp [runScriptMain, h2] at hmem
    | helpExit => simp [runScriptMain, h2] at hmem
    | ok dd =>
      by_cases hdd : d dd = true
      · by_cases hcc : c dd = true
        · simp [runScriptMain, h2, hdd, hcc] at hmem
          exact hmem.2.1
        · simp [runScriptMain, h2, hdd, hcc] at hmem
          exact hmem.2.1
      · simp [runScriptMain, h2, hdd] at hmem
        exact hmem.2.1
  · have hp := parseArgs_single hP
    by_cases hc : cOk P = true
    · simp [runBootstrap, runScriptMain, hp, hd, hc, applyEvents, applyEvent, hm]
    · simp [runBootstrap, runScriptMain, hp, hd, hc, applyEvents, applyEvent, hm]

theorem C3_force_semantics_witness :
    (∀ argv d c dest f o,
        Event.download_pysteps_data dest f o ∈ (runScriptMain argv d c).1 → f = true) ∧
    "marker.txt" ∉ (runBootstrap ["radar.nc"] ["/tmp/x"] (fun _ => true) (fun _ => true)
        (addMarker "/tmp/x" "marker.txt"
          (runBootstrap ["radar.nc"] ["/tmp/x"] (fun _ => true) (fun _ => true)
            ⟨fun _ => [], none⟩).1)).1.tree "/tmp/x" :=
  C3_force_semantics ["radar.nc"] "/tmp/x" "marker.txt" (fun _ => true) (fun _ => true)
    ⟨fun _ => [], none⟩ (by decide) (by decide) rfl

/-- C4: invoking the bootstrapper with zero arguments performs no external
call, leaves the filesystem untouched, and exits with a non-zero status. -/
theorem C4_zero_arguments (ds : List String) (dOk cOk : String → Bool) (fs : FS) :
    (runScriptMain [] dOk cOk).1 = [] ∧
    (runScriptMain [] dOk cOk).2 ≠ 0 ∧
    (runBootstrap ds [] dOk cOk fs).1 = fs := by
  refine ⟨?_, ?_, ?_⟩ <;>
    simp [runScriptMain, runBootstrap, parseArgs, scanArgs, scanArgsAux, applyEvents]

/-- C5: on a run whose argument parses, the exit code is zero exactly when
both the download and the configuration write succeed, and neither external
call is ever attempted more than once (no retry). -/
theorem C5_exit_code (argv : List String) (dOk cOk : String → Bool) (dest : String)
    (hp : parseArgs argv = ParseOutcome.ok dest) :
    ((runScriptMain argv dOk cOk).2 = 0 ↔ (dOk dest = true ∧ cOk dest = true)) ∧
    countDownloads (runScriptMain argv dOk cOk).1 ≤ 1 ∧
    countConfigWrites (runScriptMain argv dOk cOk).1 ≤ 1 := by
  by_cases hd : dOk dest = true
  · by_cases hc : cOk dest = true
    · simp [runScriptMain, hp, hd, hc, countDownloads, countConfigWrites]
    · simp [runScriptMain, hp, hd, hc, countDownloads, countConfigWrites]
  · simp [runScriptMain, hp, hd, countDownloads, countConfigWrites]

theorem C5_exit_code_witness :
    ((runScriptMain ["/tmp/x"] (fun _ => true) (fun _ => false)).2 = 0 ↔
      ((fun _ => true : String → Bool) "/tmp/x" = true ∧
        (fun _ => false : String → Bool) "/tmp/x" = true)) ∧
    countDownloads (runScriptMain ["/tmp/x"] (fun _ => true) (fun _ => false)).1 ≤ 1 ∧
    countConfigWrites (runScriptMain ["/tmp/x"] (fun _ => true) (fun _ => false)).1 ≤ 1 :=
  C5_exit_code ["/tmp/x"] (fun _ => true) (fun _ => false) "/tmp/x" (by decide)

/-- C6: a usage error (missing required argument, or an argument the parser
treats as an unknown option) makes the script exit with status 2 before any
external call, leaving the filesystem untouched; the empty argument vector
and any option-like malformed argument produce such a usage error. -/
theorem C6_usage_error_no_side_effects (ds : List String) (argv : List String)
    (dOk cOk : String → Bool) (fs : FS)
    (hp : parseArgs argv = ParseOutcome.usageError) :
    runScriptMain argv dOk cOk = ([], 2) ∧
    (runBootstrap ds argv dOk cOk fs).1 = fs ∧
    parseArgs [] = ParseOutcome.usageError ∧
    (∀ Q, classifyArg Q = ArgKind.unknownOpt → parseArgs [Q] = ParseOutcome.usageError) := by
  refine ⟨runScriptMain_usageError dOk cOk hp, ?_, by decide, ?_⟩
  · simp [runBootstrap, runScriptMain, hp, applyEvents]
  · intro Q hQ
    by_cases hq : Q = "--"
    · subst hq
      decide
    · simp [parseArgs, scanArgs, scanArgsAux, hq, hQ]

theorem C6_usage_error_no_side_effects_witness :
    runScriptMain ["--bogus"] (fun _ => true) (fun _ => true) = ([], 2) ∧
    (runBootstrap ["radar.nc"] ["--bogus"] (fun _ => true) (fun _ => true)
        ⟨fun _ => [], none⟩).1 = (⟨fun _ => [], none⟩ : FS) ∧
    parseArgs [] = ParseOutcome.usageError ∧
    (∀ Q, classifyArg Q = ArgKind.unknownOpt → parseArgs [Q] = ParseOutcome.usageError) :=
  C6_usage_error_no_side_effects ["radar.nc"] ["--bogus"] (fun _ => true) (fun _ => true)
    ⟨fun _ => [], none⟩ (by decide)

/-- C7: with no help option on the command line, parsing succeeds exactly
when the argument vector supplies exactly one positional value and no
unknown option, and two or more positional values or an unknown option
yield a usage failure with exit status 2 and no external call. -/
theorem C7_cli_surface (argv : List String) (dOk cOk : String → Bool) (d : String)
    (hh : (scanArgs argv).helpSeen = false) :
    (parseArgs argv = ParseOutcome.ok d ↔
      ((scanArgs argv).unknownSeen = false ∧ (scanArgs argv).positionals = [d])) ∧
    (2 ≤ (scanArgs argv).positionals.length ∨ (scanArgs argv).unknownSeen = true →
      parseArgs argv = ParseOutcome.usageError ∧
      runScriptMain argv dOk cOk = ([], 2)) := by
  rw [parseArgs_eq]
  cases hu : (scanArgs argv).unknownSeen
  · rcases hpos : (scanArgs argv).positionals with _ | ⟨a, _ | ⟨b, t⟩⟩
    · simp [hh, hu, hpos, runScriptMain, parseArgs_eq]
    · simp [hh, hu, hpos]
    · constructor
      · simp [hh, hu, hpos]
      · intro _
        refine ⟨by simp [hh, hu, hpos], ?_⟩
        exact runScriptMain_usageError dOk cOk (by rw [parseArgs_eq]; simp [hh, hu, hpos])
  · constructor
    · simp [hh, hu]
    · intro _
      refine ⟨by simp [hh, hu], ?_⟩
      exact runScriptMain_usageError dOk cOk (by rw [parseArgs_eq]; simp [hh, hu])

theorem C7_cli_surface_witness :
    (parseArgs ["a", "b"] = ParseOutcome.ok "a" ↔
      ((scanArgs ["a", "b"]).unknownSeen = false ∧
        (scanArgs ["a", "b"]).positionals = ["a"])) ∧
    (2 ≤ (scanArgs ["a", "b"]).positionals.length ∨
        (scanArgs ["a", "b"]).unknownSeen = true →
      parseArgs ["a", "b"] = ParseOutcome.usageError ∧
      runScriptMain ["a", "b"] (fun _ => true) (fun _ => true) = ([], 2)) :=
  C7_cli_surface ["a", "b"] (fun _ => true) (fun _ => true) "a" (by decide)

/-- C8: on a run whose argument parses as destination `dest`, every external
call in the trace is either the dataset download into `dest` or the
configuration write for `dest`; the filesystem is modified only in the
dataset tree under `dest` and in the configuration record, and the latter
either keeps its initial value or ends up pointing at `dest`. -/
theorem C8_frame (ds : List String) (argv : List String) (dOk cOk : String → Bool)
    (fs : FS) (dest : String) (hp : parseArgs argv = ParseOutcome.ok dest) :
    (∀ e ∈ (runScriptMain argv dOk cOk).1,
        (∃ o, e = Event.download_pysteps_data dest true o) ∨
        (∃ o, e = Event.create_default_pystepsrc dest o)) ∧
    (∀ p, p ≠ dest → (runBootstrap ds argv dOk cOk fs).1.tree p = fs.tree p) ∧
    ((runBootstrap ds argv dOk cOk fs).1.config = fs.config ∨
      (runBootstrap ds argv dOk cOk fs).1.config = some dest) := by
  by_cases hd : dOk dest = true
  · by_cases hc : cOk dest = true
    · refine ⟨?_, ?_, ?_⟩
      · intro e he
        simp [runScriptMain, hp, hd, hc] at he
        rcases he with h | h
        · exact Or.inl ⟨true, h⟩
        · exact Or.inr ⟨true, h⟩
      · intro p hpd
        simp [runBootstrap, runScriptMain, hp, hd, hc, applyEvents, applyEvent, hpd]
      · right
        simp [runBootstrap, runScriptMain, hp, hd, hc, applyEvents, applyEvent]
    · refine ⟨?_, ?_, ?_⟩
      · intro e he
        simp [runScriptMain, hp, hd, hc] at he
        rcases he with h | h
        · exact Or.inl ⟨true, h⟩
        · exact Or.inr ⟨false, h⟩
      · intro p hpd
        simp [runBootstrap, runScriptMain, hp, hd, hc, applyEvents, applyEvent, hpd]
      · left
        simp [runBootstrap, runScriptMain, hp, hd, hc, applyEvents, applyEvent]
  · refine ⟨?_, ?_, ?_⟩
    · intro e he
      simp [runScriptMain, hp, hd] at he
      exact Or.inl ⟨false, he⟩
    · intro p hpd
      simp [runBootstrap, runScriptMain, hp, hd, applyEvents, applyEvent, hpd]
    · left
      simp [runBootstrap, runScriptMain, hp, hd, applyEvents, applyEvent]

theorem C8_frame_witness :
    (∀ e ∈ (runScriptMain ["/tmp/x"] (fun _ => true) (fun _ => true)).1,
        (∃ o, e = Event.download_pysteps_data "/tmp/x" true o) ∨
        (∃ o, e = Event.create_default_pystepsrc "/tmp/x" o)) ∧
    (∀ p, p ≠ "/tmp/x" →
        (runBootstrap ["radar.nc"] ["/tmp/x"] (fun _ => true) (fun _ => true)
          ⟨fun _ => [], none⟩).1.tree p = (⟨fun _ => [], none⟩ : FS).tree p) ∧
    ((runBootstrap ["radar.nc"] ["/tmp/x"] (fun _ => true) (fun _ => true)
        ⟨fun _ => [], none⟩).1.config = (⟨fun _ => [], none⟩ : FS).config ∨
      (runBootstrap ["radar.nc"] ["/tmp/x"] (fun _ => true) (fun _ => true)
        ⟨fun _ => [], none⟩).1.config = some "/tmp/x") :=
  C8_frame ["radar.nc"] ["/tmp/x"] (fun _ => true) (fun _ => true)
    ⟨fun _ => [], none⟩ "/tmp/x" (by decide)

/-- C9: on a fully successful run with the single argument P, the call
trace is exactly the download of P followed by the configuration write for
P, both receiving the very string P supplied on the command line. -/
theorem C9_verbatim_forwarding (P : String) (dOk cOk : String → Bool)
    (hP : classifyArg P = ArgKind.positional) (hd : dOk P = true) (hc : cOk P = true) :
    (runScriptMain [P] dOk cOk).1 =
      [Event.download_pysteps_data P true true,
       Event.create_default_pystepsrc P true] := by
  have hp := parseArgs_single hP
  simp [runScriptMain, hp, hd, hc]

theorem C9_verbatim_forwarding_witness :
    (runScriptMain ["/tmp/test_env/"] (fun _ => true) (fun _ => true)).1 =
      [Event.download_pysteps_data "/tmp/test_env/" true true,
       Event.create_default_pystepsrc "/tmp/test_env/" true] :=
  C9_verbatim_forwarding "/tmp/test_env/" (fun _ => true) (fun _ => true)
    (by decide) rfl rfl

/-- C10: the parser accepts the empty string as the destination value, and
execution proceeds to invoke the dataset download with the empty path. -/
theorem C10_empty_string_accepted (dOk cOk : String → Bool) :
    parseArgs [""] = ParseOutcome.ok "" ∧
    Event.download_pysteps_data "" true (dOk "") ∈ (runScriptMain [""] dOk cOk).1 := by
  refine ⟨by decide, ?_⟩
  have hp : parseArgs [""] = ParseOutcome.ok "" := by decide
  by_cases hd : dOk "" = true
  · by_cases hc : cOk "" = true
    · simp [runScriptMain, hp, hd, hc]
    · simp [runScriptMain, hp, hd, hc]
  · simp [runScriptMain, hp, hd]

end FetchPystepsData
